import Mathlib

set_option maxHeartbeats 1000000

/-!
Shallow embedding of src/nbo/dem_to_asc_processor.py (class DEMProcessor):
the chunked building rasterization, the DEM/mask compositing step, and the
ESRI ASCII grid writer, together with theorems settling the specification
claims about them.

Modelling conventions:
- numpy 2-D arrays are lists of row lists; the uint8 0/1 occupancy masks
  are Bool grids (byte 1 is true, byte 0 is false).
- float32 elevation cells are modelled as exact integers (Int); the
  astype(np.float32) cast is the identity on the modelled values.
- real-valued georeference numbers are exact rationals (Rat); the decimal
  rendering of Python floats is abstracted by the rational rendering.
- the external GDAL calls are modelled as explicit function parameters:
  parse models ogr.CreateGeometryFromJson (returning none on a geometry it
  cannot build, which leaves the feature with a null geometry burning
  nothing), and covers models the burn decision of gdal.RasterizeLayer for
  the fixed grid described by the geotransform and projection.
-/

/-- A polygon geometry from the GeoJSON feature collection: an ordered list
of rings, each ring a list of (x, y) coordinate pairs. -/
structure Geometry where
  rings : List (List (Rat × Rat))
deriving DecidableEq

/-- A GeoJSON feature; the rasterizer uses only its geometry member. -/
structure Feature where
  geometry : Geometry
deriving DecidableEq

/-- The GDAL geotransform of the DEM dataset: originX, pixelW, rotX,
originY, rotY, pixelH are entries 0..5 of dataset.GetGeoTransform(). -/
structure GeoTransform where
  originX : Rat
  pixelW : Rat
  rotX : Rat
  originY : Rat
  rotY : Rat
  pixelH : Rat
deriving DecidableEq

/-- DEMProcessor.get_bounds: geographic bounds (minx, miny, maxx, maxy)
computed from the geotransform and the raster dimensions. -/
def getBounds (gt : GeoTransform) (width height : Nat) : Rat × Rat × Rat × Rat :=
  let minx := gt.originX
  let maxy := gt.originY
  let maxx := minx + (width : Rat) * gt.pixelW
  let miny := maxy + (height : Rat) * gt.pixelH
  (minx, miny, maxx, maxy)

/-- A binary occupancy grid (numpy uint8 array holding only 0 and 1). -/
abbrev Mask := List (List Bool)

/-- An elevation grid (numpy float32 array, cells modelled exactly). -/
abbrev Buf := List (List Int)

/-- A height-by-width grid built from a cell function, row-major. -/
def mkMask (height width : Nat) (f : Nat → Nat → Bool) : Mask :=
  (List.range height).map fun r => (List.range width).map fun c => f r c

/-- np.zeros((height, width), dtype=np.uint8): the all-clear mask. -/
def zerosMask (height width : Nat) : Mask :=
  mkMask height width fun _ _ => false

/-- Cell read of a Bool grid (false outside the stored rows/columns). -/
def cellB (m : Mask) (r c : Nat) : Bool := (m.getD r []).getD c false

/-- Cell read of an Int grid (0 outside the stored rows/columns). -/
def cellI (b : Buf) (r c : Nat) : Int := (b.getD r []).getD c 0

/-- Shape predicate: the grid has exactly height rows of width cells. -/
def gridShape {α : Type} (g : List (List α)) (height width : Nat) : Bool :=
  (g.length == height) && g.all fun row => row.length == width

/-- Contribution of one feature to a chunk raster: the geometry object
built by ogr.CreateGeometryFromJson (modelled by parse) covers the cell
per gdal.RasterizeLayer (modelled by covers); a feature whose geometry
cannot be built carries a null geometry and burns nothing. -/
def featureBurn (parse : Geometry → Option Geometry)
    (covers : Geometry → Nat → Nat → Bool) (f : Feature) (r c : Nat) : Bool :=
  match parse f.geometry with
  | some g => covers g r c
  | none => false

/-- Burn of a feature list: a cell is set when some feature burns it. -/
def burnAll (parse : Geometry → Option Geometry)
    (covers : Geometry → Nat → Nat → Bool) (fs : List Feature) (r c : Nat) : Bool :=
  fs.any fun f => featureBurn parse covers f r c

/-- The statement output_array[chunk_result == 1] = 1: cells set in the
chunk result become set in the accumulator, every other accumulator cell
keeps its value.  On the 0/1 byte arrays of the source this is exactly the
per-cell logical OR. -/
def orMerge (acc chunk : Mask) : Mask :=
  List.zipWith (fun arow crow => List.zipWith (fun a c => a || c) arow crow) acc chunk

/-- A per-geometry warning record carrying the index of the offending
geometry inside its chunk. -/
structure GeomWarning where
  index : Nat
deriving DecidableEq

/-- DEMProcessor._rasterize_chunk: builds an in-memory layer from the chunk
features (geometries via ogr.CreateGeometryFromJson), rasterizes the layer
with burn value 1 (gdal.RasterizeLayer) into a fresh height-by-width byte
raster, and merges that raster into the accumulator with
output_array[chunk_result == 1] = 1.  The second component lists the
per-geometry warnings the source emits; the source body contains no
warning emission at all, so the list is always empty. -/
def rasterizeChunk (parse : Geometry → Option Geometry)
    (covers : Geometry → Nat → Nat → Bool) (height width : Nat)
    (chunk : List Feature) (outputArray : Mask) : Mask × List GeomWarning :=
  let chunkResult := mkMask height width fun r c => burnAll parse covers chunk r c
  (orMerge outputArray chunkResult, [])

/-- The chunk start indices range(0, total, chunkSize) of the driver loop
in rasterize_buildings_chunked. -/
def chunkStarts (chunkSize total : Nat) : List Nat :=
  (List.range ((total + chunkSize - 1) / chunkSize)).map fun i => i * chunkSize

/-- The feature slices features[start_idx : end_idx] taken by the driver
loop, in loop order. -/
def chunkSlices (chunkSize : Nat) (features : List Feature) : List (List Feature) :=
  (chunkStarts chunkSize features.length).map fun s => (features.drop s).take chunkSize

/-- DEMProcessor.rasterize_buildings_chunked: starts from np.zeros and
folds _rasterize_chunk over the feature slices in order.  A chunkSize of 0
raises ValueError in the Python range call, so theorems assume
0 < chunkSize. -/
def rasterizeBuildingsChunked (parse : Geometry → Option Geometry)
    (covers : Geometry → Nat → Nat → Bool) (height width chunkSize : Nat)
    (features : List Feature) : Mask :=
  (chunkSlices chunkSize features).foldl
    (fun acc chunk => (rasterizeChunk parse covers height width chunk acc).1)
    (zerosMask height width)

/-- A demonstration stand-in for ogr.CreateGeometryFromJson: geometry
construction fails on a ring with fewer than 3 points. -/
def demoParse (g : Geometry) : Option Geometry :=
  if g.rings.all fun ring => 3 ≤ ring.length then some g else none

/-- A demonstration stand-in for the gdal.RasterizeLayer burn decision: a
cell is covered when one of the ring vertices equals its (column, row). -/
def demoCovers (g : Geometry) (r c : Nat) : Bool :=
  g.rings.any fun ring => ring.any fun p => p = ((c : Rat), (r : Rat))

/-- A well-formed square building footprint. -/
def demoValid : Feature := ⟨⟨[[(0, 0), (1, 0), (1, 1), (0, 1)]]⟩⟩

/-- A malformed footprint: its only ring has just 2 points. -/
def demoBad : Feature := ⟨⟨[[(0, 0), (1, 1)]]⟩⟩

/-- str(val) rendering of one data row of _write_asc_file: the cell values
joined by single spaces. -/
def renderRow (row : List Int) : String :=
  String.intercalate " " (row.map toString)

/-- The six header lines written by _write_asc_file, each one f.write call
ending in a newline: ncols, nrows, xllcorner, yllcorner, cellsize,
NODATA_value. -/
def ascHeader (gt : GeoTransform) (width height : Nat) (nodataValue : Int) :
    List String :=
  let bounds := getBounds gt width height
  ["ncols " ++ toString width ++ "\n",
   "nrows " ++ toString height ++ "\n",
   "xllcorner " ++ toString bounds.1 ++ "\n",
   "yllcorner " ++ toString bounds.2.1 ++ "\n",
   "cellsize " ++ toString (abs gt.pixelW) ++ "\n",
   "NODATA_value " ++ toString nodataValue ++ "\n"]

/-- DEMProcessor._write_asc_file as the ordered list of strings passed to
f.write: the six header lines, then one line per array row, rows iterated
in their native order (the loop `for row in array` performs no flip). -/
def ascLines (gt : GeoTransform) (width height : Nat) (array : Buf)
    (nodataValue : Int) : List String :=
  ascHeader gt width height nodataValue ++ array.map fun row => renderRow row ++ "\n"

/-- Full text content of the written ASC file. -/
def ascFileContent (gt : GeoTransform) (width height : Nat) (array : Buf)
    (nodataValue : Int) : String :=
  String.join (ascLines gt width height array nodataValue)

/-- Observable content of the destination file once the first k of the
f.write calls have reached it: open(path, "w") truncates the destination
and subsequent writes append to it directly (no temporary file and no
full-output buffering are used by the source). -/
def ascContentAfter (gt : GeoTransform) (width height : Nat) (array : Buf)
    (nodataValue : Int) (k : Nat) : String :=
  String.join ((ascLines gt width height array nodataValue).take k)

/-- Failure raised by open(output_path, "w") on an unwritable destination
(Python OSError, whose alias is IOError). -/
inductive WriteError where
  | ioError
deriving DecidableEq

/-- The writer including destination access: open raises IOError when the
destination is not writable, otherwise every line is written in order. -/
def writeAscFile (writable : Bool) (gt : GeoTransform) (width height : Nat)
    (array : Buf) (nodataValue : Int) : Except WriteError String :=
  if writable then .ok (ascFileContent gt width height array nodataValue)
  else .error .ioError

/-- Failure of the numpy boolean-mask assignment a[mask] = v: numpy raises
IndexError when the shape of the boolean index does not match the shape of
the indexed array. -/
inductive NpError where
  | booleanIndexMismatch
deriving DecidableEq

/-- Shape agreement demanded by numpy boolean-mask indexing. -/
def shapeOk (a : Buf) (m : Mask) : Bool :=
  (a.length == m.length) &&
    (List.zipWith (fun (row : List Int) (mrow : List Bool) => row.length == mrow.length)
      a m).all fun b => b

/-- The values produced by output_dem[buildings_mask == 1] = -9999 when the
shapes agree: masked cells take v, all other cells keep their value. -/
def fillGrid (a : Buf) (m : Mask) (v : Int) : Buf :=
  List.zipWith (fun row mrow => List.zipWith (fun x b => if b then v else x) row mrow) a m

/-- numpy boolean-mask assignment a[mask] = v: IndexError when the mask
shape differs from the array shape, elementwise fill otherwise. -/
def maskedFill (a : Buf) (m : Mask) (v : Int) : Except NpError Buf :=
  if shapeOk a m then .ok (fillGrid a m v) else .error .booleanIndexMismatch

/-- The compositing step of DEMProcessor.create_dem_with_buildings_nodata,
lines 174 to 178: a copy of the DEM array (astype float32 is the identity
on the modelled cells; the fresh allocation is modelled at the heap level
by the caller) with every cell of the building mask assigned -9999. -/
def compositeCore (dem : Buf) (mask : Mask) : Except NpError Buf :=
  maskedFill dem mask (-9999)

/-- A store of numpy arrays addressed by reference, modelling which array
object an in-place assignment mutates. -/
structure Heap where
  bufs : List Buf
deriving DecidableEq

/-- Dereference an array. -/
def Heap.read (h : Heap) (r : Nat) : Buf := h.bufs.getD r []

/-- Allocation of a fresh array (np.ndarray.copy): appends the value and
returns the new reference. -/
def Heap.alloc (h : Heap) (b : Buf) : Heap × Nat :=
  (⟨h.bufs ++ [b]⟩, h.bufs.length)

/-- In-place elementwise assignment into the array at reference r. -/
def Heap.write (h : Heap) (r : Nat) (b : Buf) : Heap :=
  ⟨h.bufs.set r b⟩

/-- The fields DEMProcessor.load_dem_info stores on self: the geotransform,
the elevation array (held by reference into the heap), the band nodata
value (GetNoDataValue may return None), and the raster dimensions. -/
structure DEMState where
  geotransform : GeoTransform
  demRef : Nat
  nodata : Option Int
  width : Nat
  height : Nat
deriving DecidableEq

/-- Observable pipeline events: one maskComputed event per call of
rasterize_buildings_chunked, that is per full mask-computation pass. -/
inductive PipeEvent where
  | maskComputed
deriving DecidableEq, BEq

/-- rasterize_buildings_chunked invoked at its default chunk_size of 10000,
tagged with the maskComputed event of the pass. -/
def rasterizeBuildingsChunkedT (parse : Geometry → Option Geometry)
    (covers : Geometry → Nat → Nat → Bool) (st : DEMState)
    (features : List Feature) : Mask × List PipeEvent :=
  (rasterizeBuildingsChunked parse covers st.height st.width 10000 features,
   [PipeEvent.maskComputed])

/-- DEMProcessor.create_dem_with_buildings_nodata: rasterizes the building
mask, copies the loaded DEM array into a fresh output_dem allocation,
assigns -9999 into the masked cells of the copy, and writes the ASC file
with nodata_value=-9999.  Returns the emitted events, the heap after the
method, the reference of output_dem, and on success the composited array
with the written file lines. -/
def createDemWithBuildingsNodataT (parse : Geometry → Option Geometry)
    (covers : Geometry → Nat → Nat → Bool) (st : DEMState) (h : Heap)
    (features : List Feature) :
    List PipeEvent × Heap × Nat × Except NpError (Buf × List String) :=
  let rbc := rasterizeBuildingsChunkedT parse covers st features
  let alloc := h.alloc (h.read st.demRef)
  match compositeCore (alloc.1.read alloc.2) rbc.1 with
  | .error e => (rbc.2, alloc.1, alloc.2, .error e)
  | .ok filled =>
      (rbc.2, alloc.1.write alloc.2 filled, alloc.2,
       .ok (filled, ascLines st.geotransform st.width st.height filled (-9999)))

/-- DEMProcessor.create_building_footprint_raster: recomputes the building
mask with another rasterize_buildings_chunked pass, casts it with
astype(np.float32) (cells 1 and 0), and writes it as an ASC grid with
nodata_value=-9999. -/
def createBuildingFootprintRasterT (parse : Geometry → Option Geometry)
    (covers : Geometry → Nat → Nat → Bool) (st : DEMState)
    (features : List Feature) : List PipeEvent × Buf × List String :=
  let rbc := rasterizeBuildingsChunkedT parse covers st features
  let buf : Buf := rbc.1.map fun row => row.map fun b => if b then 1 else 0
  (rbc.2, buf, ascLines st.geotransform st.width st.height buf (-9999))

/-- DEMProcessor.process_all: load_dem_info and convert_dem_to_asc are
external-collaborator steps (GDAL raster read and gdal.Translate) that
perform no mask computation; then output (b)
create_dem_with_buildings_nodata and output (c)
create_building_footprint_raster run in order, each performing its own
rasterize_buildings_chunked pass.  An exception in (b) propagates and (c)
never runs. -/
def processAll (parse : Geometry → Option Geometry)
    (covers : Geometry → Nat → Nat → Bool) (st : DEMState) (h : Heap)
    (features : List Feature) :
    List PipeEvent × Heap × Except NpError (Buf × List String × Buf × List String) :=
  let b := createDemWithBuildingsNodataT parse covers st h features
  match b.2.2.2 with
  | .error e => (b.1, b.2.1, .error e)
  | .ok (demBuf, demLines) =>
      let c := createBuildingFootprintRasterT parse covers st features
      (b.1 ++ c.1, b.2.1, .ok (demBuf, demLines, c.2.1, c.2.2))

/-- A concrete axis-aligned geotransform: origin (0, 0), cell size 1. -/
def gt0 : GeoTransform := ⟨0, 1, 0, 0, 0, -1⟩

/-- A concrete loaded-DEM state over a 1-by-1 grid whose band nodata is 5. -/
def demoState : DEMState := ⟨gt0, 0, some 5, 1, 1⟩

/-- A concrete heap holding the loaded 1-by-1 DEM array. -/
def demoHeap : Heap := ⟨[[[5]]]⟩

/- ------------------------------------------------------------------ -/
/- Helper lemmas on lists and grids.                                   -/
/- ------------------------------------------------------------------ -/

theorem getD_map_range {α : Type} (f : Nat → α) (d : α) (n i : Nat) (hi : i < n) :
    ((List.range n).map f).getD i d = f i := by
  simp [List.getD, List.getElem?_map, List.getElem?_range, hi]

theorem getD_map {α β : Type} (f : α → β) (d : β) (d0 : α) :
    ∀ (l : List α) (i : Nat), i < l.length → (l.map f).getD i d = f (l.getD i d0)
  | _ :: _, 0, _ => rfl
  | _ :: l, i + 1, h => getD_map f d d0 l i (by simpa using h)

theorem getD_zipWith {α β γ : Type} (f : α → β → γ) (da : α) (db : β) (dc : γ) :
    ∀ (l1 : List α) (l2 : List β) (i : Nat), i < l1.length → i < l2.length →
      (List.zipWith f l1 l2).getD i dc = f (l1.getD i da) (l2.getD i db)
  | _ :: _, _ :: _, 0, _, _ => rfl
  | _ :: l1, _ :: l2, i + 1, h1, h2 =>
      getD_zipWith f da db dc l1 l2 i (by simpa using h1) (by simpa using h2)

theorem zipWith_map_same {α β γ δ : Type} (h : β → γ → δ) (f : α → β) (g : α → γ) :
    ∀ l : List α, List.zipWith h (l.map f) (l.map g) = l.map fun x => h (f x) (g x)
  | [] => rfl
  | a :: l => congrArg (List.cons (h (f a) (g a))) (zipWith_map_same h f g l)

theorem cellB_mkMask (height width : Nat) (f : Nat → Nat → Bool) (r c : Nat)
    (hr : r < height) (hc : c < width) :
    cellB (mkMask height width f) r c = f r c := by
  unfold cellB mkMask
  rw [getD_map_range (fun r => (List.range width).map fun c => f r c) [] height r hr]
  exact getD_map_range (fun c => f r c) false width c hc

theorem mkMask_length (height width : Nat) (f : Nat → Nat → Bool) :
    (mkMask height width f).length = height := by
  simp [mkMask]

theorem orMerge_mkMask (height width : Nat) (f g : Nat → Nat → Bool) :
    orMerge (mkMask height width f) (mkMask height width g)
      = mkMask height width fun r c => f r c || g r c := by
  simp only [orMerge, mkMask, zipWith_map_same]

theorem foldl_rasterizeChunk (parse : Geometry → Option Geometry)
    (covers : Geometry → Nat → Nat → Bool) (height width : Nat) :
    ∀ (chunks : List (List Feature)) (a : Nat → Nat → Bool),
      chunks.foldl (fun acc chunk => (rasterizeChunk parse covers height width chunk acc).1)
          (mkMask height width a)
        = mkMask height width fun r c =>
            a r c || chunks.any fun ch => burnAll parse covers ch r c
  | [], a => by
      rw [List.foldl_nil]
      refine congrArg (mkMask height width) ?_
      funext r c
      simp
  | ch :: chunks, a => by
      rw [List.foldl_cons]
      have step : (rasterizeChunk parse covers height width ch (mkMask height width a)).1
          = mkMask height width fun r c => a r c || burnAll parse covers ch r c :=
        orMerge_mkMask height width a fun r c => burnAll parse covers ch r c
      rw [step, foldl_rasterizeChunk parse covers height width chunks
        (fun r c => a r c || burnAll parse covers ch r c)]
      refine congrArg (mkMask height width) ?_
      funext r c
      simp [Bool.or_assoc]

theorem ceil_div_pos (n k : Nat) (hk : 0 < k) (hn : 0 < n) :
    (n + k - 1) / k = (n - 1) / k + 1 := by
  have h1 : n + k - 1 = (n - 1) + k := by omega
  rw [h1, Nat.add_div_right _ hk]

theorem ceil_div_drop (n k : Nat) (hk : 0 < k) (hn : 0 < n) :
    (n - k + k - 1) / k = (n - 1) / k := by
  rcases Nat.lt_or_ge n (k + 1) with h | h
  · have e1 : n - k + k - 1 = k - 1 := by omega
    have e2 : (k - 1) / k = 0 := Nat.div_eq_of_lt (by omega)
    have e3 : (n - 1) / k = 0 := Nat.div_eq_of_lt (by omega)
    rw [e1, e2, e3]
  · have e1 : n - k + k - 1 = (n - k - 1) + k := by omega
    have e2 : n - 1 = (n - k - 1) + k := by omega
    rw [e1, Nat.add_div_right _ hk, e2, Nat.add_div_right _ hk]

theorem chunkSlices_nil (k : Nat) (hk : 0 < k) : chunkSlices k [] = [] := by
  unfold chunkSlices chunkStarts
  have h0 : (List.length ([] : List Feature) + k - 1) / k = 0 :=
    Nat.div_eq_of_lt (by simp; omega)
  rw [h0]
  rfl

theorem chunkSlices_cons (k : Nat) (hk : 0 < k) (l : List Feature) (hl : l ≠ []) :
    chunkSlices k l = l.take k :: chunkSlices k (l.drop k) := by
  have hn : 0 < l.length := List.length_pos.mpr hl
  unfold chunkSlices chunkStarts
  rw [List.length_drop, ceil_div_drop l.length k hk hn, ceil_div_pos l.length k hk hn,
    List.range_succ_eq_map, List.map_cons, List.map_cons, List.map_map, List.map_map]
  refine congrArg₂ List.cons (by simp) ?_
  simp only [List.map_map]
  refine List.map_congr_left fun i _ => ?_
  simp only [Function.comp_apply]
  rw [Nat.succ_mul, List.drop_drop, Nat.add_comm (i * k) k]

theorem chunkSlices_join (k : Nat) (hk : 0 < k) :
    ∀ (fuel : Nat) (l : List Feature), l.length ≤ fuel → (chunkSlices k l).flatten = l := by
  intro fuel
  induction fuel with
  | zero =>
      intro l hl
      have h0 : l = [] := List.length_eq_zero.mp (Nat.le_zero.mp hl)
      rw [h0, chunkSlices_nil k hk]
      rfl
  | succ fuel ih =>
      intro l hl
      by_cases hnil : l = []
      · rw [hnil, chunkSlices_nil k hk]
        rfl
      · have hpos : 0 < l.length := List.length_pos.mpr hnil
        rw [chunkSlices_cons k hk l hnil, List.flatten_cons,
          ih (l.drop k) (by rw [List.length_drop]; omega)]
        exact List.take_append_drop k l

theorem any_flatten_helper {α : Type} (p : α → Bool) :
    ∀ L : List (List α), L.flatten.any p = L.any fun l => l.any p
  | [] => rfl
  | l :: L => by rw [List.flatten_cons, List.any_append, List.any_cons, any_flatten_helper p L]

/-- The accumulated chunked rasterization equals the single-pass burn of
the whole feature collection: all chunk structure cancels out. -/
theorem rasterize_chunked_eq (parse : Geometry → Option Geometry)
    (covers : Geometry → Nat → Nat → Bool) (height width k : Nat) (hk : 0 < k)
    (features : List Feature) :
    rasterizeBuildingsChunked parse covers height width k features
      = mkMask height width (burnAll parse covers features) := by
  unfold rasterizeBuildingsChunked zerosMask
  rw [foldl_rasterizeChunk]
  refine congrArg (mkMask height width) ?_
  funext r c
  rw [Bool.false_or]
  have h1 : (chunkSlices k features).any (fun ch => burnAll parse covers ch r c)
      = (chunkSlices k features).flatten.any fun f => featureBurn parse covers f r c := by
    rw [any_flatten_helper]
    rfl
  rw [h1, chunkSlices_join k hk features.length features le_rfl]
  rfl

theorem gridShape_length {α : Type} {g : List (List α)} {height width : Nat}
    (h : gridShape g height width = true) : g.length = height := by
  simp only [gridShape, Bool.and_eq_true, beq_iff_eq] at h
  exact h.1

theorem all_getD {l : List Bool} (h : l.all (fun b => b) = true) (r : Nat)
    (hr : r < l.length) : l.getD r false = true := by
  simp only [List.all_eq_true] at h
  have hget : l.getD r false = l.get ⟨r, hr⟩ := by
    simp [List.getD, List.getElem?_eq_getElem hr, List.get_eq_getElem]
  rw [hget]
  exact h _ (List.get_mem l r hr)

theorem gridShape_row {α : Type} {g : List (List α)} {height width : Nat}
    (h : gridShape g height width = true) {r : Nat} (hr : r < g.length) :
    (g.getD r []).length = width := by
  simp only [gridShape, Bool.and_eq_true, List.all_eq_true, beq_iff_eq] at h
  have hget : g.getD r [] = g.get ⟨r, hr⟩ := by
    simp [List.getD, List.getElem?_eq_getElem hr, List.get_eq_getElem]
  rw [hget]
  exact h.2 _ (List.get_mem g r hr)

theorem gridShape_mkMask (height width : Nat) (f : Nat → Nat → Bool) :
    gridShape (mkMask height width f) height width = true := by
  simp [gridShape, mkMask, List.all_eq_true]

theorem shapeOk_length {a : Buf} {m : Mask} (h : shapeOk a m = true) :
    a.length = m.length := by
  simp only [shapeOk, Bool.and_eq_true, beq_iff_eq] at h
  exact h.1

theorem shapeOk_row {a : Buf} {m : Mask} (h : shapeOk a m = true) {r : Nat}
    (hr : r < a.length) : (a.getD r []).length = (m.getD r []).length := by
  have hlen := shapeOk_length h
  have hall : (List.zipWith
      (fun (row : List Int) (mrow : List Bool) => row.length == mrow.length) a m).all
      (fun b => b) = true := by
    simp only [shapeOk, Bool.and_eq_true] at h
    exact h.2
  have hzlen : r < (List.zipWith
      (fun (row : List Int) (mrow : List Bool) => row.length == mrow.length) a m).length := by
    rw [List.length_zipWith]
    omega
  have hcell := all_getD hall r hzlen
  rw [getD_zipWith _ [] [] false a m r hr (by omega)] at hcell
  exact beq_iff_eq.mp hcell

theorem zip_lengths_all {a : Buf} {m : Mask} {width : Nat}
    (ha : ∀ row ∈ a, row.length = width) (hm : ∀ row ∈ m, row.length = width)
    (hlen : a.length = m.length) :
    (List.zipWith
      (fun (row : List Int) (mrow : List Bool) => row.length == mrow.length) a m).all
      (fun b => b) = true := by
  induction a generalizing m with
  | nil => simp
  | cons x a ih =>
      cases m with
      | nil => simp
      | cons y m =>
          simp only [List.zipWith_cons_cons, List.all_cons, Bool.and_eq_true]
          refine ⟨?_, ih (fun r hr => ha r (by simp [hr])) (fun r hr => hm r (by simp [hr]))
            (by simpa using hlen)⟩
          have h1 := ha x (by simp)
          have h2 := hm y (by simp)
          simp [h1, h2]

theorem shapeOk_of_shapes {a : Buf} {m : Mask} {height width : Nat}
    (ha : gridShape a height width = true) (hm : gridShape m height width = true) :
    shapeOk a m = true := by
  simp only [gridShape, Bool.and_eq_true, List.all_eq_true, beq_iff_eq] at ha hm
  have hlen : a.length = m.length := by rw [ha.1, hm.1]
  simp only [shapeOk, Bool.and_eq_true, beq_iff_eq]
  exact ⟨hlen, zip_lengths_all ha.2 hm.2 hlen⟩

theorem maskedFill_ok {a : Buf} {m : Mask} {v : Int} (h : shapeOk a m = true) :
    maskedFill a m v = .ok (fillGrid a m v) := by
  unfold maskedFill
  rw [if_pos h]

theorem fillGrid_cell {a : Buf} {m : Mask} {v : Int} (h : shapeOk a m = true)
    {r c : Nat} (hr : r < a.length) (hc : c < (a.getD r []).length) :
    cellI (fillGrid a m v) r c = if cellB m r c then v else cellI a r c := by
  have hlen := shapeOk_length h
  have hrow := shapeOk_row h hr
  unfold fillGrid cellI cellB
  rw [getD_zipWith _ [] [] [] a m r hr (by omega)]
  rw [getD_zipWith _ 0 false 0 (a.getD r []) (m.getD r []) c hc (by omega)]

theorem getD_set_ne {α : Type} (a : α) (d : α) :
    ∀ (l : List α) (i j : Nat), i ≠ j → (l.set i a).getD j d = l.getD j d
  | [], _, _, _ => by simp
  | _ :: _, 0, 0, h => absurd rfl h
  | _ :: _, 0, _ + 1, _ => rfl
  | _ :: _, _ + 1, 0, _ => rfl
  | _ :: l, i + 1, j + 1, h => getD_set_ne a d l i j fun e => h (by rw [e])

theorem getD_append_left {α : Type} (d : α) :
    ∀ (l1 l2 : List α) (i : Nat), i < l1.length → (l1 ++ l2).getD i d = l1.getD i d
  | _ :: _, _, 0, _ => rfl
  | _ :: l1, l2, i + 1, h => getD_append_left d l1 l2 i (by simpa using h)

theorem getD_append_length {α : Type} (d : α) :
    ∀ (l1 l2 : List α) (i : Nat), (l1 ++ l2).getD (l1.length + i) d = l2.getD i d
  | [], _, _ => by simp
  | x :: l1, l2, i => by
      have : (x :: l1).length + i = (l1.length + i) + 1 := by
        simp [Nat.succ_add]
      rw [this]
      exact getD_append_length d l1 l2 i

theorem heap_read_alloc_old (h : Heap) (b : Buf) (r : Nat) (hr : r < h.bufs.length) :
    (h.alloc b).1.read r = h.read r := by
  unfold Heap.alloc Heap.read
  exact getD_append_left [] h.bufs [b] r hr

theorem heap_read_alloc_new (h : Heap) (b : Buf) :
    (h.alloc b).1.read (h.alloc b).2 = b := by
  unfold Heap.alloc Heap.read
  have h0 := getD_append_length ([] : Buf) h.bufs [b] 0
  simp only [Nat.add_zero] at h0
  rw [h0]
  rfl

theorem heap_read_write_ne (h : Heap) (i : Nat) (b : Buf) (r : Nat) (hne : r ≠ i) :
    (h.write i b).read r = h.read r := by
  unfold Heap.write Heap.read
  exact getD_set_ne b [] h.bufs i r fun e => hne e.symm

theorem ascHeader_length (gt : GeoTransform) (width height : Nat) (nv : Int) :
    (ascHeader gt width height nv).length = 6 := rfl

theorem ascLines_get_data (gt : GeoTransform) (width height : Nat) (array : Buf)
    (nv : Int) (i : Nat) (hi : i < array.length) :
    (ascLines gt width height array nv).getD (6 + i) ""
      = renderRow (array.getD i []) ++ "\n" := by
  unfold ascLines
  have h6 : (6 : Nat) + i = (ascHeader gt width height nv).length + i := by
    rw [ascHeader_length]
  rw [h6, getD_append_length]
  exact getD_map (fun row => renderRow row ++ "\n") "" [] array i hi

theorem cellI_maskToBuf {m : Mask} {height width : Nat}
    (hm : gridShape m height width = true) {r c : Nat} (hr : r < height)
    (hc : c < width) :
    cellI (m.map fun row => row.map fun b => if b then (1 : Int) else 0) r c
      = if cellB m r c then 1 else 0 := by
  have hlen := gridShape_length hm
  have hrow := gridShape_row hm (r := r) (by omega)
  unfold cellI cellB
  rw [getD_map (fun row => row.map fun b => if b then (1 : Int) else 0) [] [] m r (by omega)]
  rw [getD_map (fun b => if b then (1 : Int) else 0) 0 false (m.getD r []) c (by omega)]

theorem mask_gridShape (parse : Geometry → Option Geometry)
    (covers : Geometry → Nat → Nat → Bool) (height width k : Nat) (hk : 0 < k)
    (features : List Feature) :
    gridShape (rasterizeBuildingsChunked parse covers height width k features)
      height width = true := by
  rw [rasterize_chunked_eq parse covers height width k hk features]
  exact gridShape_mkMask height width (burnAll parse covers features)

theorem createDem_ok (parse : Geometry → Option Geometry)
    (covers : Geometry → Nat → Nat → Bool) (st : DEMState) (h : Heap)
    (features : List Feature)
    (hshape : gridShape (h.read st.demRef) st.height st.width = true) :
    createDemWithBuildingsNodataT parse covers st h features
      = ([PipeEvent.maskComputed],
         (h.alloc (h.read st.demRef)).1.write (h.alloc (h.read st.demRef)).2
           (fillGrid (h.read st.demRef)
             (rasterizeBuildingsChunked parse covers st.height st.width 10000 features)
             (-9999)),
         (h.alloc (h.read st.demRef)).2,
         .ok (fillGrid (h.read st.demRef)
               (rasterizeBuildingsChunked parse covers st.height st.width 10000 features)
               (-9999),
              ascLines st.geotransform st.width st.height
                (fillGrid (h.read st.demRef)
                  (rasterizeBuildingsChunked parse covers st.height st.width 10000 features)
                  (-9999))
                (-9999))) := by
  have hm := mask_gridShape parse covers st.height st.width 10000 (by omega) features
  have hok := shapeOk_of_shapes hshape hm
  simp only [createDemWithBuildingsNodataT, rasterizeBuildingsChunkedT, compositeCore]
  rw [heap_read_alloc_new, maskedFill_ok hok]

/- ------------------------------------------------------------------ -/
/- Claim theorems.                                                     -/
/- ------------------------------------------------------------------ -/

/-- C1: for every polygon collection and every pair of chunk sizes k1, k2,
rasterizing the collection in chunks of size k1 with per-cell logical OR
accumulation (rasterize_buildings_chunked / _rasterize_chunk) yields a
mask identical cell-for-cell to rasterizing it in chunks of size k2: the
accumulated mask is independent of the batch size and batch boundaries. -/
theorem c1_chunk_size_invariance (parse : Geometry → Option Geometry)
    (covers : Geometry → Nat → Nat → Bool) (height width : Nat)
    (features : List Feature) (k1 k2 : Nat) (hk1 : 0 < k1) (hk2 : 0 < k2) :
    rasterizeBuildingsChunked parse covers height width k1 features
      = rasterizeBuildingsChunked parse covers height width k2 features := by
  rw [rasterize_chunked_eq parse covers height width k1 hk1 features,
    rasterize_chunked_eq parse covers height width k2 hk2 features]

/-- Witness for C1 at a concrete collection and chunk sizes 1 and 2. -/
theorem c1_witness :
    rasterizeBuildingsChunked demoParse demoCovers 2 2 1 [demoValid, demoBad, demoValid]
      = rasterizeBuildingsChunked demoParse demoCovers 2 2 2
          [demoValid, demoBad, demoValid] :=
  c1_chunk_size_invariance demoParse demoCovers 2 2 [demoValid, demoBad, demoValid]
    1 2 (by decide) (by decide)

/-- C2: for every elevation array and occupancy mask of matching
dimensions, the compositing step of create_dem_with_buildings_nodata
produces a new elevation array in which every masked cell equals the
nodata sentinel written for the output grid (-9999) and every unmasked
cell equals the corresponding input cell; unmasked cells that already held
the source nodata value are therefore copied as-is. -/
theorem c2_composite_correct (dem : Buf) (mask : Mask)
    (hshape : shapeOk dem mask = true) (r c : Nat) (hr : r < dem.length)
    (hc : c < (dem.getD r []).length) :
    ∃ out, compositeCore dem mask = .ok out ∧
      (cellB mask r c = true → cellI out r c = -9999) ∧
      (cellB mask r c = false → cellI out r c = cellI dem r c) := by
  refine ⟨fillGrid dem mask (-9999), maskedFill_ok hshape, ?_, ?_⟩
  · intro hb
    rw [fillGrid_cell hshape hr hc, hb, if_pos rfl]
  · intro hb
    rw [fillGrid_cell hshape hr hc, hb]
    simp

/-- Witness for C2 at a concrete 2-by-2 DEM and mask. -/
theorem c2_witness :
    ∃ out, compositeCore [[1, 2], [3, 4]] [[true, false], [false, false]] = .ok out ∧
      (cellB [[true, false], [false, false]] 0 0 = true → cellI out 0 0 = -9999) ∧
      (cellB [[true, false], [false, false]] 0 0 = false → cellI out 0 0 = cellI [[1, 2], [3, 4]] 0 0) :=
  c2_composite_correct [[1, 2], [3, 4]] [[true, false], [false, false]]
    (by decide) 0 0 (by decide) (by decide)

/-- C6: for every occupancy mask and elevation array passed to the
compositing step whose dimensions do not match, the operation fails before
producing any output.  The failure is the IndexError numpy raises on a
boolean index of mismatching shape, which the specification names the
DimensionMismatch precondition violation of the compositor. -/
theorem c6_dimension_mismatch_fatal (dem : Buf) (mask : Mask)
    (hbad : shapeOk dem mask = false) :
    compositeCore dem mask = .error .booleanIndexMismatch := by
  unfold compositeCore maskedFill
  rw [if_neg (by simp [hbad])]

/-- Witness for C6 at a 1-by-1 DEM against an empty mask. -/
theorem c6_witness :
    compositeCore [[1]] [] = .error .booleanIndexMismatch :=
  c6_dimension_mismatch_fatal [[1]] [] (by decide)

/-- C4: for every 2-D array written by _write_asc_file, data line i of the
output contains exactly array row i — the rows appear top-to-bottom in the
array's native order (row 0 first) and the writer applies no implicit
vertical flip. -/
theorem c4_no_vertical_flip (gt : GeoTransform) (width height : Nat)
    (array : Buf) (nv : Int) (i : Nat) (hi : i < array.length) :
    (ascLines gt width height array nv).getD (6 + i) ""
      = renderRow (array.getD i []) ++ "\n" :=
  ascLines_get_data gt width height array nv i hi

/-- Witness for C4: the first data line of a concrete 2-row write is the
first array row. -/
theorem c4_witness :
    (ascLines gt0 2 2 [[1, 2], [3, 4]] (-9999)).getD 6 ""
      = renderRow ([[1, 2], [3, 4]].getD 0 []) ++ "\n" :=
  c4_no_vertical_flip gt0 2 2 [[1, 2], [3, 4]] (-9999) 0 (by decide)

/-- C8: for every GeoGrid and 2-D array of its dimensions, the file written
by _write_asc_file is exactly six header lines (ncols, nrows, xllcorner,
yllcorner, cellsize, NODATA_value) followed by exactly nrows data lines,
each the space-separated rendering of the ncols values of one row, in
row-major order, with no trailing metadata. -/
theorem c8_ascii_grid_format (gt : GeoTransform) (width height : Nat)
    (array : Buf) (nv : Int) (hlen : array.length = height)
    (hrows : ∀ row ∈ array, row.length = width) :
    (ascLines gt width height array nv).length = 6 + height ∧
    (ascLines gt width height array nv).take 6 = ascHeader gt width height nv ∧
    (ascLines gt width height array nv).getD 0 "" = "ncols " ++ toString width ++ "\n" ∧
    (ascLines gt width height array nv).getD 1 "" = "nrows " ++ toString height ++ "\n" ∧
    (ascLines gt width height array nv).getD 5 ""
      = "NODATA_value " ++ toString nv ++ "\n" ∧
    ∀ i, i < height →
      (array.getD i []).length = width ∧
      (ascLines gt width height array nv).getD (6 + i) ""
        = String.intercalate " " ((array.getD i []).map toString) ++ "\n" := by
  refine ⟨?_, ?_, rfl, rfl, rfl, ?_⟩
  · unfold ascLines
    rw [List.length_append, ascHeader_length, List.length_map, hlen]
  · unfold ascLines
    have h6 : (6 : Nat) = (ascHeader gt width height nv).length := rfl
    rw [h6, List.take_left]
  · intro i hi
    have hi2 : i < array.length := by omega
    refine ⟨?_, ascLines_get_data gt width height array nv i hi2⟩
    have hget : array.getD i [] = array.get ⟨i, hi2⟩ := by
      simp [List.getD, List.getElem?_eq_getElem hi2, List.get_eq_getElem]
    rw [hget]
    exact hrows _ (List.get_mem array i hi2)

/-- Witness for C8 at a concrete 1-by-2 grid. -/
theorem c8_witness :
    (ascLines gt0 2 1 [[7, 8]] (-9999)).length = 6 + 1 ∧
    (ascLines gt0 2 1 [[7, 8]] (-9999)).take 6 = ascHeader gt0 2 1 (-9999) ∧
    (ascLines gt0 2 1 [[7, 8]] (-9999)).getD 0 "" = "ncols " ++ toString 2 ++ "\n" ∧
    (ascLines gt0 2 1 [[7, 8]] (-9999)).getD 1 "" = "nrows " ++ toString 1 ++ "\n" ∧
    (ascLines gt0 2 1 [[7, 8]] (-9999)).getD 5 ""
      = "NODATA_value " ++ toString (-9999 : Int) ++ "\n" ∧
    ∀ i, i < 1 →
      (([[7, 8]] : Buf).getD i []).length = 2 ∧
      (ascLines gt0 2 1 [[7, 8]] (-9999)).getD (6 + i) ""
        = String.intercalate " " ((([[7, 8]] : Buf).getD i []).map toString) ++ "\n" :=
  c8_ascii_grid_format gt0 2 1 [[7, 8]] (-9999) (by decide) (by decide)

/-- C5 counterexample: _write_asc_file opens the destination directly and
writes incrementally, so after the first write call completes the
destination observably holds just the first header line — neither the
empty content nor the full file — refuting the claim that no partially
written file is observable on a failure part-way through. -/
theorem c5_counterexample :
    ¬ ∀ k, ascContentAfter gt0 2 1 [[1, 2]] (-9999) k = "" ∨
        ascContentAfter gt0 2 1 [[1, 2]] (-9999) k
          = ascFileContent gt0 2 1 [[1, 2]] (-9999) := fun hall =>
  absurd (hall 1) (by decide)

/-- C5 amended: the writer fails with IOError when the destination is not
writable; however it writes incrementally straight to the destination path
(no temporary file, no full-output buffering), so after the first write
call the destination already holds the first header line, and after k
calls it holds exactly the first k lines — a partially written file is
observable on a mid-write failure. -/
theorem c5_amended_incremental_write (gt : GeoTransform) (width height : Nat)
    (array : Buf) (nv : Int) :
    writeAscFile false gt width height array nv = .error .ioError ∧
    (ascLines gt width height array nv).take 1 = ["ncols " ++ toString width ++ "\n"] ∧
    ∀ k, ascContentAfter gt width height array nv k
        = String.join ((ascLines gt width height array nv).take k) :=
  ⟨rfl, rfl, fun _ => rfl⟩

/-- C7 counterexample: a chunk whose geometry at index 0 is malformed (its
ring has only 2 points, so geometry construction fails) produces no
warning record carrying that index — _rasterize_chunk emits no warning at
all, refuting that a warning with the geometry's index is recorded exactly
once. -/
theorem c7_counterexample :
    demoParse demoBad.geometry = none ∧
    ((rasterizeChunk demoParse demoCovers 2 2 [demoBad, demoValid]
        (zerosMask 2 2)).2.filter fun w => w.index == 0).length ≠ 1 := by
  decide

/-- C7 amended: _rasterize_chunk never aborts a batch: a feature whose
geometry construction fails contributes no cells while every other feature
is still rasterized, but the skip is silent — no warning carrying the
geometry's index (nor any warning at all) is recorded. -/
theorem c7_amended_silent_skip (parse : Geometry → Option Geometry)
    (covers : Geometry → Nat → Nat → Bool) (height width : Nat)
    (chunk : List Feature) (out : Mask)
    (hout : gridShape out height width = true) (r c : Nat) (hr : r < height)
    (hc : c < width) :
    (rasterizeChunk parse covers height width chunk out).2 = [] ∧
    cellB (rasterizeChunk parse covers height width chunk out).1 r c
      = (cellB out r c || chunk.any fun f => featureBurn parse covers f r c) := by
  refine ⟨rfl, ?_⟩
  have hstep : (rasterizeChunk parse covers height width chunk out).1
      = orMerge out (mkMask height width fun rr cc => burnAll parse covers chunk rr cc) :=
    rfl
  rw [hstep]
  have holen := gridShape_length hout
  have hmlen := mkMask_length height width fun rr cc => burnAll parse covers chunk rr cc
  unfold orMerge cellB
  rw [getD_zipWith _ [] [] [] out _ r (by omega) (by omega)]
  rw [getD_zipWith _ false false false (out.getD r [])
    ((mkMask height width fun rr cc => burnAll parse covers chunk rr cc).getD r []) c
    (by rw [gridShape_row hout (by omega)]; omega)
    (by rw [gridShape_row (gridShape_mkMask height width _) (by omega)]; omega)]
  have hcell : ((mkMask height width fun rr cc => burnAll parse covers chunk rr cc).getD r []).getD c false
      = burnAll parse covers chunk r c :=
    cellB_mkMask height width _ r c hr hc
  rw [hcell]
  rfl

/-- Witness for C7 amended at a concrete chunk containing a malformed and a
valid geometry. -/
theorem c7_amended_witness :
    (rasterizeChunk demoParse demoCovers 2 2 [demoBad, demoValid] (zerosMask 2 2)).2 = [] ∧
    cellB (rasterizeChunk demoParse demoCovers 2 2 [demoBad, demoValid] (zerosMask 2 2)).1 1 1
      = (cellB (zerosMask 2 2) 1 1 ||
          [demoBad, demoValid].any fun f => featureBurn demoParse demoCovers f 1 1) :=
  c7_amended_silent_skip demoParse demoCovers 2 2 [demoBad, demoValid]
    (zerosMask 2 2) (by decide) 1 1 (by decide) (by decide)

/-- C9: create_dem_with_buildings_nodata composites into a copy of the
loaded DEM array (output_dem = self.dem_array.copy().astype(np.float32)),
so after the method returns the array self.dem_array refers to is
unchanged cell-for-cell and remains usable by later pipeline stages. -/
theorem c9_dem_array_preserved (parse : Geometry → Option Geometry)
    (covers : Geometry → Nat → Nat → Bool) (st : DEMState) (h : Heap)
    (features : List Feature) (href : st.demRef < h.bufs.length) :
    ((createDemWithBuildingsNodataT parse covers st h features).2.1).read st.demRef
      = h.read st.demRef := by
  simp only [createDemWithBuildingsNodataT, rasterizeBuildingsChunkedT, compositeCore]
  rw [heap_read_alloc_new]
  rcases hm : maskedFill (h.read st.demRef)
      (rasterizeBuildingsChunked parse covers st.height st.width 10000 features)
      (-9999) with e | filled
  · simp only [hm]
    exact heap_read_alloc_old h (h.read st.demRef) st.demRef href
  · simp only [hm]
    rw [heap_read_write_ne (h.alloc (h.read st.demRef)).1
      (h.alloc (h.read st.demRef)).2 filled st.demRef (Nat.ne_of_lt href)]
    exact heap_read_alloc_old h (h.read st.demRef) st.demRef href

/-- Witness for C9 at a concrete loaded state. -/
theorem c9_witness :
    ((createDemWithBuildingsNodataT demoParse demoCovers demoState demoHeap []).2.1).read
        demoState.demRef = demoHeap.read demoState.demRef :=
  c9_dem_array_preserved demoParse demoCovers demoState demoHeap [] (by decide)

theorem ascLines_getD5 (gt : GeoTransform) (width height : Nat) (array : Buf) :
    (ascLines gt width height array (-9999)).getD 5 "" = "NODATA_value -9999\n" := by
  unfold ascLines
  rw [getD_append_left "" _ _ 5 (by rw [ascHeader_length]; omega)]
  show "NODATA_value " ++ toString (-9999 : Int) ++ "\n" = "NODATA_value -9999\n"
  decide

/-- C10: regardless of the source DEM band nodata value n (self.nodata,
which may differ from -9999), the compositing step writes the literal
-9999 into every masked cell and the written header declares
NODATA_value -9999, while unmasked cells that held n keep n; when
n differs from -9999 those cells do not match the declared sentinel. -/
theorem c10_literal_nodata_sentinel (parse : Geometry → Option Geometry)
    (covers : Geometry → Nat → Nat → Bool) (st : DEMState) (h : Heap)
    (features : List Feature) (n : Int)
    (hshape : gridShape (h.read st.demRef) st.height st.width = true)
    (hnod : st.nodata = some n) (hne : n ≠ -9999) (r c : Nat)
    (hr : r < st.height) (hc : c < st.width)
    (hnodcell : cellI (h.read st.demRef) r c = n)
    (hmask : cellB (rasterizeBuildingsChunked parse covers st.height st.width
      10000 features) r c = false) :
    ∃ buf lines,
      (createDemWithBuildingsNodataT parse covers st h features).2.2.2
        = .ok (buf, lines) ∧
      lines.getD 5 "" = "NODATA_value -9999\n" ∧
      cellI buf r c = n ∧ cellI buf r c ≠ -9999 ∧
      ∀ rr cc, rr < st.height → cc < st.width →
        cellB (rasterizeBuildingsChunked parse covers st.height st.width
          10000 features) rr cc = true →
        cellI buf rr cc = -9999 := by
  have hm := mask_gridShape parse covers st.height st.width 10000 (by omega) features
  have hok := shapeOk_of_shapes hshape hm
  have hred := createDem_ok parse covers st h features hshape
  have hdlen := gridShape_length hshape
  have hrD : r < (h.read st.demRef).length := by omega
  have hcD : c < ((h.read st.demRef).getD r []).length := by
    rw [gridShape_row hshape hrD]
    omega
  refine ⟨fillGrid (h.read st.demRef)
      (rasterizeBuildingsChunked parse covers st.height st.width 10000 features)
      (-9999),
    ascLines st.geotransform st.width st.height
      (fillGrid (h.read st.demRef)
        (rasterizeBuildingsChunked parse covers st.height st.width 10000 features)
        (-9999))
      (-9999),
    by rw [hred], ascLines_getD5 _ _ _ _, ?_, ?_, ?_⟩
  · rw [fillGrid_cell hok hrD hcD, hmask, if_neg (by simp)]
    exact hnodcell
  · rw [fillGrid_cell hok hrD hcD, hmask, if_neg (by simp), hnodcell]
    exact hne
  · intro rr cc hrr hcc hset
    have hrD2 : rr < (h.read st.demRef).length := by omega
    have hcD2 : cc < ((h.read st.demRef).getD rr []).length := by
      rw [gridShape_row hshape hrD2]
      omega
    rw [fillGrid_cell hok hrD2 hcD2, hset, if_pos rfl]

/-- Witness for C10 at a concrete DEM whose band nodata is 5. -/
theorem c10_witness :
    ∃ buf lines,
      (createDemWithBuildingsNodataT demoParse demoCovers demoState demoHeap []).2.2.2
        = .ok (buf, lines) ∧
      lines.getD 5 "" = "NODATA_value -9999\n" ∧
      cellI buf 0 0 = 5 ∧ cellI buf 0 0 ≠ -9999 ∧
      ∀ rr cc, rr < demoState.height → cc < demoState.width →
        cellB (rasterizeBuildingsChunked demoParse demoCovers demoState.height
          demoState.width 10000 []) rr cc = true →
        cellI buf rr cc = -9999 :=
  c10_literal_nodata_sentinel demoParse demoCovers demoState demoHeap [] 5
    (by decide) rfl (by decide) 0 0 (by decide) (by decide) (by decide) (by decide)

/-- C3 counterexample: at a concrete run of process_all the events record
two rasterize_buildings_chunked passes — one inside
create_dem_with_buildings_nodata and one inside
create_building_footprint_raster — refuting that the occupancy mask is
computed exactly once. -/
theorem c3_counterexample :
    ((processAll demoParse demoCovers demoState demoHeap []).1.count
        PipeEvent.maskComputed = 2) ∧
    ¬ ((processAll demoParse demoCovers demoState demoHeap []).1.count
        PipeEvent.maskComputed = 1) := by
  decide

/-- C3 amended: process_all computes the occupancy mask twice, once per
output, but both passes are deterministic over the same loaded state, so
the DEM-with-nodata output (b) and the footprint output (c) are mutually
consistent: every cell the footprint raster sets to 1 is -9999 in (b) and
every cell it leaves 0 keeps the source DEM value in (b). -/
theorem c3_amended_outputs_mutually_consistent (parse : Geometry → Option Geometry)
    (covers : Geometry → Nat → Nat → Bool) (st : DEMState) (h : Heap)
    (features : List Feature)
    (hshape : gridShape (h.read st.demRef) st.height st.width = true)
    (r c : Nat) (hr : r < st.height) (hc : c < st.width) :
    ∃ evs h2 demBuf demLines footBuf footLines,
      processAll parse covers st h features
        = (evs, h2, .ok (demBuf, demLines, footBuf, footLines)) ∧
      (cellI footBuf r c = 1 → cellI demBuf r c = -9999) ∧
      (cellI footBuf r c = 0 → cellI demBuf r c = cellI (h.read st.demRef) r c) := by
  have hm := mask_gridShape parse covers st.height st.width 10000 (by omega) features
  have hok := shapeOk_of_shapes hshape hm
  have hred := createDem_ok parse covers st h features hshape
  have hdlen := gridShape_length hshape
  have hrD : r < (h.read st.demRef).length := by omega
  have hcD : c < ((h.read st.demRef).getD r []).length := by
    rw [gridShape_row hshape hrD]
    omega
  have hfoot : cellI ((rasterizeBuildingsChunked parse covers st.height st.width
        10000 features).map fun row => row.map fun b => if b then (1 : Int) else 0) r c
      = if cellB (rasterizeBuildingsChunked parse covers st.height st.width
          10000 features) r c then 1 else 0 :=
    cellI_maskToBuf hm hr hc
  have hdem : cellI (fillGrid (h.read st.demRef)
        (rasterizeBuildingsChunked parse covers st.height st.width 10000 features)
        (-9999)) r c
      = if cellB (rasterizeBuildingsChunked parse covers st.height st.width
          10000 features) r c then -9999
        else cellI (h.read st.demRef) r c :=
    fillGrid_cell hok hrD hcD
  refine ⟨[PipeEvent.maskComputed] ++ [PipeEvent.maskComputed],
    (h.alloc (h.read st.demRef)).1.write (h.alloc (h.read st.demRef)).2
      (fillGrid (h.read st.demRef)
        (rasterizeBuildingsChunked parse covers st.height st.width 10000 features)
        (-9999)),
    fillGrid (h.read st.demRef)
      (rasterizeBuildingsChunked parse covers st.height st.width 10000 features)
      (-9999),
    ascLines st.geotransform st.width st.height
      (fillGrid (h.read st.demRef)
        (rasterizeBuildingsChunked parse covers st.height st.width 10000 features)
        (-9999))
      (-9999),
    (rasterizeBuildingsChunked parse covers st.height st.width 10000 features).map
      fun row => row.map fun b => if b then (1 : Int) else 0,
    ascLines st.geotransform st.width st.height
      ((rasterizeBuildingsChunked parse covers st.height st.width 10000 features).map
        fun row => row.map fun b => if b then (1 : Int) else 0)
      (-9999),
    ?_, ?_, ?_⟩
  · simp only [processAll, createBuildingFootprintRasterT, rasterizeBuildingsChunkedT]
    rw [hred]
  · intro h1
    rw [hdem]
    by_cases hbc : cellB (rasterizeBuildingsChunked parse covers st.height st.width
        10000 features) r c = true
    · rw [if_pos hbc]
    · have hbf : cellB (rasterizeBuildingsChunked parse covers st.height st.width
          10000 features) r c = false := by
        revert hbc
        cases cellB (rasterizeBuildingsChunked parse covers st.height st.width
          10000 features) r c <;> simp
      rw [hfoot, hbf] at h1
      simp at h1
  · intro h0
    rw [hdem]
    by_cases hbc : cellB (rasterizeBuildingsChunked parse covers st.height st.width
        10000 features) r c = true
    · rw [hfoot, hbc] at h0
      simp at h0
    · have hbf : cellB (rasterizeBuildingsChunked parse covers st.height st.width
          10000 features) r c = false := by
        revert hbc
        cases cellB (rasterizeBuildingsChunked parse covers st.height st.width
          10000 features) r c <;> simp
      rw [if_neg (by rw [hbf]; simp)]

/-- Witness for C3 amended at a concrete loaded state. -/
theorem c3_amended_witness :
    ∃ evs h2 demBuf demLines footBuf footLines,
      processAll demoParse demoCovers demoState demoHeap []
        = (evs, h2, .ok (demBuf, demLines, footBuf, footLines)) ∧
      (cellI footBuf 0 0 = 1 → cellI demBuf 0 0 = -9999) ∧
      (cellI footBuf 0 0 = 0 →
        cellI demBuf 0 0 = cellI (demoHeap.read demoState.demRef) 0 0) :=
  c3_amended_outputs_mutually_consistent demoParse demoCovers demoState demoHeap []
    (by decide) 0 0 (by decide) (by decide)
